import Mathlib

/-!
Verification of the RangeSampler sketch (`src/picking/SendDistance/SendDistance.ino`).

The sketch is:

  void setup() {
    Serial.begin(2000000);
    Wire.begin();
    sensor.init();
    sensor.configureDefault();
    sensor.setTimeout(500);
  }

  void loop() {
    int distance = sensor.readRangeSingleMillimeters();
    if (sensor.timeoutOccurred() == 0) {
      Serial.println(distance);
    }
  }

We embed it as an event-trace machine.  The vendor driver (`VL6180X.h`) is not
part of the repository; its calls are modelled as events whose outcomes
(`readRangeSingleMillimeters` returns a `uint16_t` reading, and the associated
timeout flag reported by `timeoutOccurred()`) are supplied by the environment
as a list of `Outcome`s, one per loop iteration.  The C `int` type of the
target board has some width `w ≥ 16`; the assignment
`int distance = sensor.readRangeSingleMillimeters();` converts the `uint16_t`
return value to a `w`-bit signed integer, which we model by `toIntW w`.
-/

/-- One simulated result of `sensor.readRangeSingleMillimeters()`:
the raw value the driver returns (taken mod 2^16, since the C return type is
`uint16_t`) and the flag that `sensor.timeoutOccurred()` reports afterwards. -/
structure Outcome where
  value : Nat
  timeout : Bool
deriving DecidableEq, Repr

/-- The `uint16_t` reading actually returned by the driver call. -/
def rawReading (o : Outcome) : Nat := o.value % 65536

/-- C conversion of an unsigned value to a `w`-bit two's-complement signed
`int`, as performed by `int distance = sensor.readRangeSingleMillimeters();`
(on the AVR targets of this sketch `w = 16`; the C standard only guarantees
`w ≥ 16`). -/
def toIntW (w : Nat) (v : Nat) : Int :=
  if v % 2 ^ w < 2 ^ (w - 1) then ((v % 2 ^ w : Nat) : Int)
  else ((v % 2 ^ w : Nat) : Int) - 2 ^ w

/-- Observable events of the sketch: calls made in `setup()` and, per loop
iteration, the issuing and return of a range request and the optional
`Serial.println` of the converted reading. -/
inductive Event where
  | serialBegin (baud : Nat)
  | wireBegin
  | sensorInit
  | configureDefault
  | setTimeout (t : Nat)
  | readStart
  | readEnd (value : Nat) (timeout : Bool)
  | println (n : Int)
deriving DecidableEq, Repr

/-- The event trace of `setup()`: `Serial.begin(2000000); Wire.begin();
sensor.init(); sensor.configureDefault(); sensor.setTimeout(500);`
(the `pinMode` line is commented out in the source). -/
def setupTrace : List Event :=
  [Event.serialBegin 2000000, Event.wireBegin, Event.sensorInit,
   Event.configureDefault, Event.setTimeout 500]

/-- The event trace of one execution of `loop()` under outcome `o`:
the blocking read is issued and returns, then
`if (sensor.timeoutOccurred() == 0) Serial.println(distance);`. -/
def loopIter (w : Nat) (o : Outcome) : List Event :=
  [Event.readStart, Event.readEnd (rawReading o) o.timeout] ++
    (if o.timeout = false then [Event.println (toIntW w (rawReading o))] else [])

/-- The event trace of running `loop()` once per outcome in `os`. -/
def loopTrace (w : Nat) : List Outcome → List Event
  | [] => []
  | o :: os => loopIter w o ++ loopTrace w os

/-- The full trace of an execution: `setup()` once, then the loop iterations. -/
def runTrace (w : Nat) (os : List Outcome) : List Event :=
  setupTrace ++ loopTrace w os

/-- The values written to the reporting channel by a trace, one per line. -/
def printlns : List Event → List Int
  | [] => []
  | Event.println n :: tr => n :: printlns tr
  | _ :: tr => printlns tr

/-- The lines a single loop iteration writes to the reporting channel. -/
def iterOutput (w : Nat) (o : Outcome) : List Int :=
  if o.timeout = false then [toIntW w (rawReading o)] else []

/-- The outcomes whose timeout flag is clear (those the sketch reports). -/
def successes (os : List Outcome) : List Outcome :=
  os.filter (fun o => o.timeout = false)

/-- Index of the first event satisfying `p`, if any. -/
def firstIdx (p : Event → Bool) : List Event → Option Nat
  | [] => none
  | e :: tr => if p e then some 0 else (firstIdx p tr).map (· + 1)

def isInit : Event → Bool
  | Event.sensorInit => true
  | _ => false

def isConfig : Event → Bool
  | Event.configureDefault => true
  | _ => false

def isReadStart : Event → Bool
  | Event.readStart => true
  | _ => false

def isReadEnd : Event → Bool
  | Event.readEnd _ _ => true
  | _ => false

def isSetTimeout : Event → Bool
  | Event.setTimeout _ => true
  | _ => false

def isSerialBegin : Event → Bool
  | Event.serialBegin _ => true
  | _ => false

/-- Counter update for outstanding range requests along a trace. -/
def outStep (c : Nat) : Event → Nat
  | Event.readStart => c + 1
  | Event.readEnd _ _ => c - 1
  | _ => c

/-- Greatest number of simultaneously outstanding range requests reached at
any point of the trace, starting from `c` outstanding. -/
def maxOutstanding (c : Nat) : List Event → Nat
  | [] => c
  | e :: tr => max c (maxOutstanding (outStep c e) tr)

/-- Rendering of one `Serial.println(int)` call: the decimal representation of
the integer followed by the Arduino line break. -/
def renderLine (n : Int) : String := toString n ++ "\r\n"

/-- The full text the sketch emits on the serial reporting channel. -/
def serialOutput (w : Nat) (os : List Outcome) : String :=
  String.join ((printlns (runTrace w os)).map renderLine)

/-- Persistent program state of the sketch: the sensor's configured timeout
and the lines written to the serial channel so far.  The variable `distance`
is local to one loop iteration and is not retained. -/
structure SamplerState where
  timeoutConfig : Nat
  output : List Int
deriving DecidableEq, Repr

/-- State after `setup()` has run. -/
def initState : SamplerState := { timeoutConfig := 500, output := [] }

/-- One execution of `loop()` as a state transformer: the read yields `o`;
the reading is printed iff the timeout flag is clear. -/
def loopStep (w : Nat) (s : SamplerState) (o : Outcome) : SamplerState :=
  if o.timeout = false then { s with output := s.output ++ [toIntW w (rawReading o)] } else s

/-- Running `loop()` once per outcome from state `s`. -/
def runLoop (w : Nat) (s : SamplerState) : List Outcome → SamplerState
  | [] => s
  | o :: os => runLoop w (loopStep w s o) os

/-! ### Helper lemmas -/

theorem printlns_append (a b : List Event) :
    printlns (a ++ b) = printlns a ++ printlns b := by
  induction a with
  | nil => rfl
  | cons e tr ih => cases e <;> simp [printlns, ih]

theorem printlns_loopIter (w : Nat) (o : Outcome) :
    printlns (loopIter w o) = iterOutput w o := by
  cases h : o.timeout <;> simp [loopIter, iterOutput, printlns, h]

theorem printlns_loopTrace (w : Nat) (os : List Outcome) :
    printlns (loopTrace w os) = (os.map (iterOutput w)).flatten := by
  induction os with
  | nil => rfl
  | cons o os ih => simp [loopTrace, printlns_append, printlns_loopIter, ih]

theorem printlns_setupTrace : printlns setupTrace = [] := rfl

theorem printlns_loop_filter (w : Nat) (os : List Outcome) :
    printlns (loopTrace w os) =
      (successes os).map (fun o => toIntW w (rawReading o)) := by
  induction os with
  | nil => rfl
  | cons o os ih =>
    rw [loopTrace, printlns_append, printlns_loopIter]
    cases h : o.timeout <;> simp [iterOutput, successes, List.filter_cons, h, ih]

theorem printlns_run (w : Nat) (os : List Outcome) :
    printlns (runTrace w os) =
      (successes os).map (fun o => toIntW w (rawReading o)) := by
  rw [runTrace, printlns_append, printlns_setupTrace, printlns_loop_filter]
  rfl

theorem toIntW_of_lt {w v : Nat} (h : v < 2 ^ (w - 1)) : toIntW w v = v := by
  have hw : 2 ^ (w - 1) ≤ 2 ^ w := Nat.pow_le_pow_right (by norm_num) (Nat.sub_le w 1)
  have hv : v % 2 ^ w = v := Nat.mod_eq_of_lt (lt_of_lt_of_le h hw)
  simp [toIntW, hv, h]

theorem pow_ge_of_width {w : Nat} (h : 16 ≤ w) : 32768 ≤ 2 ^ (w - 1) := by
  calc (32768 : Nat) = 2 ^ 15 := by norm_num
  _ ≤ 2 ^ (w - 1) := Nat.pow_le_pow_right (by norm_num) (by omega)

theorem countP_loopIter_readStart (w : Nat) (o : Outcome) :
    (loopIter w o).countP isReadStart = 1 := by
  cases h : o.timeout <;> simp [loopIter, h, List.countP_cons, isReadStart]

theorem countP_loopIter_readEnd (w : Nat) (o : Outcome) :
    (loopIter w o).countP isReadEnd = 1 := by
  cases h : o.timeout <;> simp [loopIter, h, List.countP_cons, isReadEnd]

theorem countP_loop_readStart (w : Nat) (os : List Outcome) :
    (loopTrace w os).countP isReadStart = os.length := by
  induction os with
  | nil => rfl
  | cons o os ih =>
    rw [loopTrace, List.countP_append, countP_loopIter_readStart, ih, List.length_cons]
    omega

theorem countP_loop_readEnd (w : Nat) (os : List Outcome) :
    (loopTrace w os).countP isReadEnd = os.length := by
  induction os with
  | nil => rfl
  | cons o os ih =>
    rw [loopTrace, List.countP_append, countP_loopIter_readEnd, ih, List.length_cons]
    omega

theorem setTimeout_not_mem_loopTrace (w : Nat) (os : List Outcome) (t : Nat) :
    Event.setTimeout t ∉ loopTrace w os := by
  induction os with
  | nil => simp [loopTrace]
  | cons o os ih =>
    cases h : o.timeout <;> simp [loopTrace, loopIter, h, ih]

theorem serialBegin_not_mem_loopTrace (w : Nat) (os : List Outcome) (b : Nat) :
    Event.serialBegin b ∉ loopTrace w os := by
  induction os with
  | nil => simp [loopTrace]
  | cons o os ih =>
    cases h : o.timeout <;> simp [loopTrace, loopIter, h, ih]

theorem countP_setTimeout_loop (w : Nat) (os : List Outcome) :
    (loopTrace w os).countP isSetTimeout = 0 := by
  induction os with
  | nil => rfl
  | cons o os ih =>
    cases h : o.timeout <;>
      simp [loopTrace, loopIter, h, List.countP_append, List.countP_cons, isSetTimeout, ih]

theorem countP_serialBegin_loop (w : Nat) (os : List Outcome) :
    (loopTrace w os).countP isSerialBegin = 0 := by
  induction os with
  | nil => rfl
  | cons o os ih =>
    cases h : o.timeout <;>
      simp [loopTrace, loopIter, h, List.countP_append, List.countP_cons, isSerialBegin, ih]

theorem maxOutstanding_loop (w : Nat) (os : List Outcome) :
    maxOutstanding 0 (loopTrace w os) ≤ 1 := by
  induction os with
  | nil => simp [loopTrace, maxOutstanding]
  | cons o os ih =>
    cases h : o.timeout <;>
      simpa [loopTrace, loopIter, h, maxOutstanding, outStep] using ih

/-! ### Claim theorems -/

/-- C1.  Timeout suppression: in every loop iteration whose measurement sets
the timeout flag nothing is written to the reporting channel, and the outcome
sequence [120 mm (no timeout), TIMEOUT, 95 mm (no timeout)] produces exactly
the two reported lines `120` then `95`, nothing for the middle iteration. -/
theorem C1_timeout_suppression :
    (∀ (w : Nat) (o : Outcome), o.timeout = true → printlns (loopIter w o) = []) ∧
    (∀ (w v : Nat), 16 ≤ w →
      printlns (runTrace w [⟨120, false⟩, ⟨v, true⟩, ⟨95, false⟩]) = [120, 95]) := by
  constructor
  · intro w o h
    rw [printlns_loopIter, iterOutput, h]
    simp
  · intro w v hw
    have h120 : toIntW w 120 = 120 :=
      toIntW_of_lt (lt_of_lt_of_le (by norm_num) (pow_ge_of_width hw))
    have h95 : toIntW w 95 = 95 :=
      toIntW_of_lt (lt_of_lt_of_le (by norm_num) (pow_ge_of_width hw))
    rw [printlns_run]
    simp [successes, List.filter_cons, rawReading, h120, h95]

/-- Witness for C1 at concrete inputs. -/
theorem C1_timeout_suppression_witness :
    printlns (loopIter 16 ⟨7, true⟩) = [] ∧
    printlns (runTrace 16 [⟨120, false⟩, ⟨0, true⟩, ⟨95, false⟩]) = [120, 95] :=
  ⟨C1_timeout_suppression.1 16 ⟨7, true⟩ rfl,
   C1_timeout_suppression.2 16 0 (by norm_num)⟩

/-- C4.  Unbounded repetition: for every list of outcomes, mixed successes and
timeouts, running the loop issues exactly one measurement request per outcome
(`os.length` many), continuing after timed-out iterations just as after
successful ones, with no terminal state. -/
theorem C4_unbounded_repetition (w : Nat) (os : List Outcome) :
    (runTrace w os).countP isReadStart = os.length := by
  rw [runTrace, List.countP_append, countP_loop_readStart]
  have h0 : setupTrace.countP isReadStart = 0 := by decide
  omega

/-- C2 counterexample.  The claim "for every non-timed-out outcome the
reported value equals the raw measurement exactly" fails on a 16-bit-`int`
target: the non-timed-out raw reading 32768 is reported as the line `-32768`,
not `32768`. -/
theorem C2_pass_through_counterexample :
    (⟨32768, false⟩ : Outcome).timeout = false ∧
    rawReading ⟨32768, false⟩ = 32768 ∧
    printlns (runTrace 16 [⟨32768, false⟩]) = [-32768] ∧
    printlns (runTrace 16 [⟨32768, false⟩]) ≠ [(rawReading ⟨32768, false⟩ : Int)] := by
  decide

/-- C2 (amended).  For every non-timed-out outcome whose raw reading is
representable in the target's `w`-bit signed `int` (raw < 2^(w-1); in
particular every reading ≤ 32767, hence every `uint16_t` reading on targets
whose `int` is wider than 16 bits), the reported value equals the raw
measurement exactly, with no rounding, scaling, or offset; a raw reading of
255 yields the reported line `255`. -/
theorem C2_pass_through_amended :
    (∀ (w : Nat) (o : Outcome), o.timeout = false → rawReading o < 2 ^ (w - 1) →
      printlns (loopIter w o) = [(rawReading o : Int)]) ∧
    (∀ w : Nat, 16 ≤ w → printlns (runTrace w [⟨255, false⟩]) = [255]) := by
  constructor
  · intro w o ht hlt
    rw [printlns_loopIter, iterOutput, ht]
    simp [toIntW_of_lt hlt]
  · intro w hw
    have h255 : toIntW w 255 = 255 :=
      toIntW_of_lt (lt_of_lt_of_le (by norm_num) (pow_ge_of_width hw))
    rw [printlns_run]
    simp [successes, List.filter_cons, rawReading, h255]

/-- Witness for C2 (amended) at a concrete input. -/
theorem C2_pass_through_witness :
    printlns (loopIter 16 ⟨255, false⟩) = [(rawReading ⟨255, false⟩ : Int)] ∧
    printlns (runTrace 16 [⟨255, false⟩]) = [255] :=
  ⟨C2_pass_through_amended.1 16 ⟨255, false⟩ rfl (by decide),
   C2_pass_through_amended.2 16 (by norm_num)⟩

/-- C3.  In every execution, `sensor.init` (trace position 2) and
`sensor.configureDefault` (trace position 3) are both invoked, in that order,
during `setup()`, and strictly before the first
`readRangeSingleMillimeters` request is ever issued. -/
theorem C3_init_before_first_read (w : Nat) (os : List Outcome) :
    firstIdx isInit (runTrace w os) = some 2 ∧
    firstIdx isConfig (runTrace w os) = some 3 ∧
    (∀ n, firstIdx isReadStart (runTrace w os) = some n → 3 < n) := by
  refine ⟨?_, ?_, ?_⟩
  · simp [runTrace, setupTrace, firstIdx, isInit]
  · simp [runTrace, setupTrace, firstIdx, isConfig]
  · intro n h
    rcases hm : firstIdx isReadStart (loopTrace w os) with _ | m
    · rw [runTrace, setupTrace] at h
      simp [firstIdx, isReadStart, hm] at h
    · rw [runTrace, setupTrace] at h
      simp [firstIdx, isReadStart, hm] at h
      omega

/-- Witness for C3 at a concrete input. -/
theorem C3_init_before_first_read_witness :
    firstIdx isInit (runTrace 16 [⟨100, false⟩]) = some 2 ∧ 3 < 5 :=
  ⟨(C3_init_before_first_read 16 [⟨100, false⟩]).1,
   (C3_init_before_first_read 16 [⟨100, false⟩]).2.2 5 (by decide)⟩

/-- C5.  The measurement timeout of 500 is applied to the sensor handle
exactly once over any execution, that application happens in `setup()`, no
loop iteration ever re-applies it, and 500 is the only value ever applied. -/
theorem C5_timeout_config_once (w : Nat) (os : List Outcome) :
    (runTrace w os).countP isSetTimeout = 1 ∧
    Event.setTimeout 500 ∈ setupTrace ∧
    (loopTrace w os).countP isSetTimeout = 0 ∧
    (∀ t, Event.setTimeout t ∈ runTrace w os → t = 500) := by
  refine ⟨?_, by decide, countP_setTimeout_loop w os, ?_⟩
  · rw [runTrace, List.countP_append, countP_setTimeout_loop]
    have h1 : setupTrace.countP isSetTimeout = 1 := by decide
    omega
  · intro t ht
    rw [runTrace, List.mem_append] at ht
    rcases ht with h | h
    · simpa [setupTrace] using h
    · exact absurd h (setTimeout_not_mem_loopTrace w os t)

/-- Witness for C5 at a concrete input. -/
theorem C5_timeout_config_once_witness :
    (runTrace 16 [⟨5, false⟩, ⟨6, true⟩]).countP isSetTimeout = 1 ∧ (500 : Nat) = 500 :=
  ⟨(C5_timeout_config_once 16 [⟨5, false⟩, ⟨6, true⟩]).1,
   (C5_timeout_config_once 16 [⟨5, false⟩, ⟨6, true⟩]).2.2.2 500 (by decide)⟩

/-- C6.  The reporting channel is opened at 2,000,000 baud as the very first
initialization action, it is opened exactly once and never at any other rate,
and everything ever emitted on it is one decimal integer line (the converted
reading followed by a line break) per non-timed-out measurement — no other
message types, headers, or framing. -/
theorem C6_reporting_channel (w : Nat) (os : List Outcome) :
    (runTrace w os).head? = some (Event.serialBegin 2000000) ∧
    (runTrace w os).countP isSerialBegin = 1 ∧
    (∀ b, Event.serialBegin b ∈ runTrace w os → b = 2000000) ∧
    serialOutput w os =
      String.join ((successes os).map (fun o => renderLine (toIntW w (rawReading o)))) := by
  refine ⟨rfl, ?_, ?_, ?_⟩
  · rw [runTrace, List.countP_append, countP_serialBegin_loop]
    have h1 : setupTrace.countP isSerialBegin = 1 := by decide
    omega
  · intro b hb
    rw [runTrace, List.mem_append] at hb
    rcases hb with h | h
    · simpa [setupTrace] using h
    · exact absurd h (serialBegin_not_mem_loopTrace w os b)
  · rw [serialOutput, printlns_run, List.map_map]
    rfl

/-- Witness for C6 at a concrete input. -/
theorem C6_reporting_channel_witness :
    serialOutput 16 [⟨12, false⟩, ⟨3, true⟩] =
      String.join ((successes [⟨12, false⟩, ⟨3, true⟩]).map
        (fun o => renderLine (toIntW 16 (rawReading o)))) ∧
    (2000000 : Nat) = 2000000 :=
  ⟨(C6_reporting_channel 16 [⟨12, false⟩, ⟨3, true⟩]).2.2.2,
   (C6_reporting_channel 16 [⟨12, false⟩, ⟨3, true⟩]).2.2.1 2000000 (by decide)⟩

/-- C7.  At every point of every execution at most one range request is
outstanding — a new request is never issued before the previous one has
returned — and every issued request returns (equal start and end counts). -/
theorem C7_single_outstanding (w : Nat) (os : List Outcome) :
    maxOutstanding 0 (runTrace w os) ≤ 1 ∧
    (runTrace w os).countP isReadStart = (runTrace w os).countP isReadEnd := by
  constructor
  · have h := maxOutstanding_loop w os
    rw [runTrace, setupTrace]
    simpa [maxOutstanding, outStep] using h
  · rw [runTrace, List.countP_append, List.countP_append,
      countP_loop_readStart, countP_loop_readEnd]
    have h1 : setupTrace.countP isReadStart = 0 := by decide
    have h2 : setupTrace.countP isReadEnd = 0 := by decide
    omega

/-- C8.  A measurement timeout never alters subsequent behavior: a timed-out
iteration is the identity on the persistent program state (nothing is written
to the channel, nothing is counted or reconfigured), so running the remaining
outcomes after it gives exactly the run obtained by deleting the timed-out
iteration. -/
theorem C8_timeout_no_effect (w : Nat) (s : SamplerState) (o : Outcome)
    (os : List Outcome) (h : o.timeout = true) :
    loopStep w s o = s ∧ runLoop w s (o :: os) = runLoop w s os := by
  have hstep : loopStep w s o = s := by
    rw [loopStep, h]
    simp
  refine ⟨hstep, ?_⟩
  show runLoop w (loopStep w s o) os = runLoop w s os
  rw [hstep]

/-- Witness for C8 at a concrete input. -/
theorem C8_timeout_no_effect_witness :
    loopStep 16 initState ⟨3, true⟩ = initState ∧
    runLoop 16 initState [⟨3, true⟩, ⟨42, false⟩] = runLoop 16 initState [⟨42, false⟩] :=
  C8_timeout_no_effect 16 initState ⟨3, true⟩ [⟨42, false⟩] rfl

/-- C9.  On a 16-bit-`int` target, the assignment of the `uint16_t` reading
to `int distance` reinterprets any non-timed-out raw reading above 32767 in
two's complement: the reported line is the negative value raw − 65536, not
the raw value; exact pass-through holds exactly for readings ≤ 32767. -/
theorem C9_int16_reinterpretation :
    (∀ o : Outcome, o.timeout = false → 32767 < rawReading o →
      printlns (loopIter 16 o) = [(rawReading o : Int) - 65536] ∧
      toIntW 16 (rawReading o) < 0) ∧
    (∀ o : Outcome, o.timeout = false → rawReading o ≤ 32767 →
      printlns (loopIter 16 o) = [(rawReading o : Int)]) := by
  constructor
  · intro o ht hgt
    have hub : rawReading o < 65536 := Nat.mod_lt _ (by norm_num)
    have hmod : rawReading o % 2 ^ 16 = rawReading o :=
      Nat.mod_eq_of_lt (by norm_num; omega)
    have hcond : ¬ rawReading o % 2 ^ 16 < 2 ^ (16 - 1) := by
      rw [hmod]; norm_num; omega
    have htw : toIntW 16 (rawReading o) = (rawReading o : Int) - 65536 := by
      rw [toIntW, if_neg hcond, hmod]
      norm_num
    refine ⟨?_, ?_⟩
    · rw [printlns_loopIter, iterOutput, ht]
      simp [htw]
    · rw [htw]
      omega
  · intro o ht hle
    have hlt : rawReading o < 2 ^ (16 - 1) := by norm_num; omega
    rw [printlns_loopIter, iterOutput, ht]
    simp [toIntW_of_lt hlt]

/-- Witness for C9 at concrete inputs. -/
theorem C9_int16_reinterpretation_witness :
    printlns (loopIter 16 ⟨40000, false⟩) = [(rawReading ⟨40000, false⟩ : Int) - 65536] ∧
    printlns (loopIter 16 ⟨200, false⟩) = [(rawReading ⟨200, false⟩ : Int)] :=
  ⟨(C9_int16_reinterpretation.1 ⟨40000, false⟩ rfl (by decide)).1,
   C9_int16_reinterpretation.2 ⟨200, false⟩ rfl (by decide)⟩

/-- C10.  The channel output decomposes iteration by iteration, and the i-th
iteration's emission is a function of the i-th outcome alone: two executions
whose i-th measurements agree (same value, same timeout flag) emit the same
thing at iteration i, independent of all earlier outcomes. -/
theorem C10_iteration_determinism :
    (∀ (w : Nat) (os : List Outcome),
      printlns (runTrace w os) = (os.map (iterOutput w)).flatten) ∧
    (∀ (w : Nat) (os1 os2 : List Outcome) (i : Nat), os1[i]? = os2[i]? →
      (os1.map (iterOutput w))[i]? = (os2.map (iterOutput w))[i]?) := by
  constructor
  · intro w os
    rw [runTrace, printlns_append, printlns_setupTrace, printlns_loopTrace]
    rfl
  · intro w os1 os2 i h
    rw [List.getElem?_map, List.getElem?_map, h]

/-- Witness for C10 at concrete inputs: the two runs differ in their first
outcome but agree at index 1, so their iteration-1 emissions agree. -/
theorem C10_iteration_determinism_witness :
    (([⟨1, false⟩, ⟨2, false⟩] : List Outcome).map (iterOutput 16))[1]? =
      (([⟨9, true⟩, ⟨2, false⟩] : List Outcome).map (iterOutput 16))[1]? :=
  C10_iteration_determinism.2 16 [⟨1, false⟩, ⟨2, false⟩] [⟨9, true⟩, ⟨2, false⟩] 1
    (by decide)
